import Mathlib

/-!
Verification of the StreamStudio broadcaster/viewer core: a shallow
embedding of the AdminPanel session manager and viewer registry
(src/App.tsx), of the viewer message dispatcher
(src/components/ViewerPage.tsx), of the DVR ring buffer (src/unnamed/part_006)
and of the bounded-backoff reconnection loop (src/unnamed/part_010), with
theorems about source switching, stale pruning, signaling dispatch and the
DVR window invariant.
-/

namespace StreamStudio

/-- Mirrors `enum StreamMode` from types.ts. -/
inductive StreamMode
  | IDLE
  | LIVE
  | SCREEN
  | FILE_UPLOAD
deriving DecidableEq

/-- Mirrors `interface Resolution` (width, height, label). -/
structure Resolution where
  width : Nat
  height : Nat
  label : String
deriving DecidableEq

/-- A stream/session id as produced by `generateUrl`:
`Date.now().toString(36) + "-" + Math.random().toString(36).substring(2, 8)`.
The id is determined by the millisecond timestamp and the random suffix, so
it is modelled as that pair (the base-36 rendering is injective on it). -/
structure SessionId where
  time : Nat
  rand : String
deriving DecidableEq

/-- The closed signaling message enumeration (types.ts `StreamMessageType`). -/
inductive MsgType
  | VIEWER_JOIN
  | VIEWER_HEARTBEAT
  | VIEWER_LEAVE
  | STREAM_UPDATE
  | STOP_STREAM
  | SIGNAL_OFFER
  | SIGNAL_ANSWER
  | SIGNAL_ICE
  | SIGNAL_ICE_ADMIN
deriving DecidableEq

/-- Broadcaster-side view of one `RTCPeerConnection`'s signaling state:
after `setLocalDescription(offer)` it is `haveLocalOffer`; after
`setRemoteDescription(answer)` it is `stable`. -/
inductive SignalingState
  | stable
  | haveLocalOffer
deriving DecidableEq

structure PeerConn where
  signalingState : SignalingState
deriving DecidableEq

/-- Lookup in an insertion-ordered association list (JS `Map.get`). -/
def mapGet {A : Type} (m : List (String × A)) (k : String) : Option A :=
  match m with
  | [] => none
  | (k', v) :: t => if k' = k then some v else mapGet t k

/-- JS `Map.set`: overwrite in place when the key exists, append otherwise. -/
def mapSet {A : Type} (m : List (String × A)) (k : String) (v : A) :
    List (String × A) :=
  match m with
  | [] => [(k, v)]
  | (k', v') :: t => if k' = k then (k, v) :: t else (k', v') :: mapSet t k v

/-- JS `Map.delete`: remove the entry with the given key. -/
def mapDelete {A : Type} (m : List (String × A)) (k : String) :
    List (String × A) :=
  m.filter (fun e => decide (e.1 ≠ k))

/-- Observable side effects of the broadcaster's operations: peer-connection
closes, media-track stops, messages posted on the BroadcastChannel, and
timers armed with `setTimeout`. -/
inductive Effect
  | closePC (viewerId : String)
  | stopTracks
  | postStreamUpdate (title : String) (mode : StreamMode) (streamId : SessionId)
      (res : Resolution)
  | postStopStream
  | postSignalOffer (viewerId : String) (streamId : SessionId) (title : String)
      (mode : StreamMode) (res : Resolution)
  | scheduleWebRTC (viewerId : String) (streamId : Option SessionId) (delayMs : Nat)
  | setRemoteAnswer (viewerId : String)
  | addIceCandidate (viewerId : String)
deriving DecidableEq

/-- Discriminator for `STREAM_UPDATE` broadcasts among the effects. -/
def Effect.isStreamUpdate : Effect → Bool
  | Effect.postStreamUpdate _ _ _ _ => true
  | _ => false

/-- The AdminPanel component state that the session manager and viewer
registry operate on: stream title, mode, the viewer map
(`viewerId ↦ lastSeenAt` milliseconds), the current stream id, whether a
media source is attached (`streamRef.current != null`), the selected
resolution, the per-viewer peer connections, and the small UI flags that
`stopStream` resets. -/
structure AdminState where
  streamTitle : String
  mode : StreamMode
  viewerMap : List (String × Nat)
  streamId : Option SessionId
  stream : Bool
  selectedResolution : Resolution
  peerConnections : List (String × PeerConn)
  tip : String
  isPlaying : Bool
  previewMuted : Bool
deriving DecidableEq

/-- Mirrors `const VIEWER_TIMEOUT = 12000` (ms). -/
def VIEWER_TIMEOUT : Nat := 12000

/-- Embeds `pruneStaleViewers`: every viewer whose `lastSeenAt` is more than
`VIEWER_TIMEOUT` ms in the past is deleted from the viewer map; its peer
connection (when one exists) is closed and deleted from the
peer-connection map. -/
def pruneStaleViewers (now : Nat) (s : AdminState) : AdminState × List Effect :=
  let staleIds := (s.viewerMap.filter (fun e => decide (now - e.2 > VIEWER_TIMEOUT))).map
    (fun e => e.1)
  ({ s with
      viewerMap := s.viewerMap.filter (fun e => decide (¬ now - e.2 > VIEWER_TIMEOUT)),
      peerConnections := s.peerConnections.filter
        (fun p => decide (¬ p.1 ∈ staleIds)) },
   staleIds.filterMap (fun id =>
     match mapGet s.peerConnections id with
     | some _ => some (Effect.closePC id)
     | none => none))

/-- Embeds `initiateWebRTC(targetId, currentStreamId)`: no-op unless a source is
attached and the stream id is non-empty; otherwise closes any previous
connection for the viewer, creates a fresh one, attaches the current
tracks, and posts a `SIGNAL_OFFER` carrying the current title, mode and
resolution. -/
def initiateWebRTC (targetId : String) (currentStreamId : Option SessionId)
    (s : AdminState) : AdminState × List Effect :=
  match currentStreamId with
  | none => (s, [])
  | some sid =>
    if s.stream = false then (s, [])
    else
      let closeEffs := match mapGet s.peerConnections targetId with
        | some _ => [Effect.closePC targetId]
        | none => []
      ({ s with peerConnections :=
          mapSet s.peerConnections targetId ⟨SignalingState.haveLocalOffer⟩ },
       closeEffs ++
        [Effect.postSignalOffer targetId sid s.streamTitle s.mode
          s.selectedResolution])

/-- The `peerConnections.current.forEach((_, id) => { close; initiateWebRTC })`
loop at the end of `setupStream`, iterating over the keys captured at the
start of the loop. -/
def renegotiateAll (newId : SessionId) (ids : List String) (s : AdminState) :
    AdminState × List Effect :=
  match ids with
  | [] => (s, [])
  | id :: rest =>
    let closeEffs := match mapGet s.peerConnections id with
      | some _ => [Effect.closePC id]
      | none => []
    let r1 := initiateWebRTC id (some newId) s
    let r2 := renegotiateAll newId rest r1.1
    (r2.1, closeEffs ++ r1.2 ++ r2.2)

/-- The fresh id that `generateUrl` produces from the current time and the random
suffix. -/
def genId (now : Nat) (rand : String) : SessionId := ⟨now, rand⟩

/-- Embeds `setupStream(stream, newMode)`: stops the previous source's tracks,
attaches the new source, sets the mode, allocates a fresh stream id via
`generateUrl`, posts a single `STREAM_UPDATE`, then re-initiates WebRTC for
every entry of the peer-connection map; the viewer map is not touched.
`now`/`rand` model `Date.now()`/`Math.random()` inside `generateUrl`, and
`tip` the randomly chosen tip. -/
def setupStream (now : Nat) (rand : String) (tip : String)
    (newMode : StreamMode) (s : AdminState) : AdminState × List Effect :=
  let stopEffs := if s.stream then [Effect.stopTracks] else []
  let newId := genId now rand
  let s1 : AdminState :=
    { s with
        stream := true
        isPlaying := true
        mode := newMode
        streamId := some newId
        tip := tip }
  let updEff := Effect.postStreamUpdate s.streamTitle newMode newId
    s.selectedResolution
  let r := renegotiateAll newId (s1.peerConnections.map (fun e => e.1)) s1
  (r.1, stopEffs ++ [updEff] ++ r.2)

/-- Embeds `stopStream`: stops the source's tracks, closes every peer connection,
clears the viewer map and the peer-connection map, resets mode/id/tip and
the preview flags, and always posts a terminal `STOP_STREAM` broadcast. -/
def stopStream (s : AdminState) : AdminState × List Effect :=
  let stopEffs := if s.stream then [Effect.stopTracks] else []
  let closeEffs := s.peerConnections.map (fun e => Effect.closePC e.1)
  ({ s with
      stream := false
      peerConnections := []
      viewerMap := []
      mode := StreamMode.IDLE
      streamId := none
      tip := ""
      isPlaying := true
      previewMuted := true },
   stopEffs ++ closeEffs ++ [Effect.postStopStream])

/-- The idle broadcaster state: no active session, empty registry, no peer
connections, everything at its reset value. -/
def idleState (title : String) (res : Resolution) : AdminState :=
  { streamTitle := title, mode := StreamMode.IDLE, viewerMap := [],
    streamId := none, stream := false, selectedResolution := res,
    peerConnections := [], tip := "", isPlaying := true, previewMuted := true }

/-- Discriminator for `SIGNAL_OFFER` effects addressed to a given viewer. -/
def Effect.isOfferFor (v : String) : Effect → Bool
  | Effect.postSignalOffer w _ _ _ _ => decide (w = v)
  | _ => false

/-- A broadcaster state with an attached source and an allocated stream id,
parametrized by its viewer registry and peer-connection map; used to
instantiate the theorems at concrete inputs. -/
def liveState (vm : List (String × Nat)) (pcs : List (String × PeerConn)) :
    AdminState :=
  { streamTitle := "Title", mode := StreamMode.LIVE, viewerMap := vm,
    streamId := some ⟨5, "abc"⟩, stream := true,
    selectedResolution := ⟨1280, 720, "720p (HD)"⟩, peerConnections := pcs,
    tip := "", isPlaying := true, previewMuted := true }

/-- A signaling payload as seen by the broadcaster's `bc.current.onmessage`:
the `viewerId` (empty string when absent) and whether the answer/candidate
fields are present. -/
structure Payload where
  viewerId : String
  hasAnswer : Bool
  hasCandidate : Bool
deriving DecidableEq

/-- The broadcaster's `bc.current.onmessage` dispatcher. `VIEWER_JOIN` and
`VIEWER_HEARTBEAT` bail out on an empty `viewerId` and otherwise stamp
`lastSeenAt := now`; a join with an attached source arms a 400 ms
`setTimeout` for `initiateWebRTC`. `VIEWER_LEAVE` removes the record and
closes/deletes the peer connection. `SIGNAL_ANSWER`/`SIGNAL_ICE` are dropped
when no peer connection is known for the `viewerId`. All other types have
no case in the switch. -/
def onAdminMessage (t : MsgType) (p : Payload) (now : Nat) (s : AdminState) :
    AdminState × List Effect :=
  match t with
  | MsgType.VIEWER_JOIN =>
    if p.viewerId = "" then (s, [])
    else
      ({ s with viewerMap := mapSet s.viewerMap p.viewerId now },
       if s.stream then [Effect.scheduleWebRTC p.viewerId s.streamId 400]
       else [])
  | MsgType.VIEWER_HEARTBEAT =>
    if p.viewerId = "" then (s, [])
    else ({ s with viewerMap := mapSet s.viewerMap p.viewerId now }, [])
  | MsgType.VIEWER_LEAVE =>
    if p.viewerId = "" then (s, [])
    else
      ({ s with
          viewerMap := mapDelete s.viewerMap p.viewerId
          peerConnections := mapDelete s.peerConnections p.viewerId },
       match mapGet s.peerConnections p.viewerId with
       | some _ => [Effect.closePC p.viewerId]
       | none => [])
  | MsgType.SIGNAL_ANSWER =>
    match mapGet s.peerConnections p.viewerId with
    | some pc =>
      if pc.signalingState ≠ SignalingState.stable ∧ p.hasAnswer = true then
        ({ s with peerConnections :=
            mapSet s.peerConnections p.viewerId ⟨SignalingState.stable⟩ },
         [Effect.setRemoteAnswer p.viewerId])
      else (s, [])
    | none => (s, [])
  | MsgType.SIGNAL_ICE =>
    match mapGet s.peerConnections p.viewerId with
    | some _ =>
      if p.hasCandidate = true then (s, [Effect.addIceCandidate p.viewerId])
      else (s, [])
    | none => (s, [])
  | _ => (s, [])

/-- Viewer connection status in `ViewerPage.tsx` (`connecting | live | ended`). -/
inductive VStatus
  | connecting
  | live
  | ended
deriving DecidableEq

/-- Observable side effects of the viewer's message handler. -/
inductive VEffect
  | postSignalAnswer (viewerId : String)
  | closePC
  | addIce
  | clearHeartbeat
  | clearStats
deriving DecidableEq

/-- The viewer component state relevant to the signaling dispatcher: the
stream info banner, the connection status and error message, whether a
peer connection object exists (`pcRef.current != null`), and the
accumulated resolution list. -/
structure ViewerState where
  streamInfo : Option (String × StreamMode)
  status : VStatus
  errorMsg : String
  pc : Bool
  availableResolutions : List Resolution
deriving DecidableEq

/-- A signaling payload as destructured by the viewer's `bc.onmessage`:
`viewerId` (empty when absent), the stream id, title/mode, optional
resolution, and presence of the offer/candidate fields. -/
structure VPayload where
  viewerId : String
  streamId : Option SessionId
  title : String
  mode : StreamMode
  resolution : Option Resolution
  hasOffer : Bool
  hasCandidate : Bool
deriving DecidableEq

/-- The `setAvailableResolutions` updater: append the advertised resolution
unless one with the same width is already present. -/
def addResolution (l : List Resolution) : Option Resolution → List Resolution
  | none => l
  | some r => if l.any (fun x => decide (x.width = r.width)) then l else l ++ [r]

/-- Embeds `handleOffer`: ignore offers for a different stream id; otherwise close
any previous peer connection, build a fresh one, answer with
`SIGNAL_ANSWER`, and record the stream info and advertised resolution. -/
def handleOffer (myId : String) (myStreamId : SessionId) (p : VPayload)
    (s : ViewerState) : ViewerState × List VEffect :=
  if p.streamId = some myStreamId then
    ({ s with
        pc := true
        streamInfo := some (p.title, p.mode)
        availableResolutions := addResolution s.availableResolutions p.resolution },
     (if s.pc then [VEffect.closePC] else []) ++ [VEffect.postSignalAnswer myId])
  else (s, [])

/-- The viewer's `bc.onmessage` dispatcher. The guard on its first line
discards every message that carries a `viewerId` different from the
viewer's own identity unless the type is `STOP_STREAM`. -/
def handleViewerMessage (myId : String) (myStreamId : SessionId) (t : MsgType)
    (p : VPayload) (s : ViewerState) : ViewerState × List VEffect :=
  if p.viewerId ≠ "" ∧ p.viewerId ≠ myId ∧ t ≠ MsgType.STOP_STREAM then (s, [])
  else
    match t with
    | MsgType.STREAM_UPDATE =>
      if p.streamId = some myStreamId then
        ({ s with
            streamInfo := some (p.title, p.mode)
            status := VStatus.live
            availableResolutions := addResolution s.availableResolutions p.resolution },
         [])
      else (s, [])
    | MsgType.SIGNAL_OFFER => handleOffer myId myStreamId p s
    | MsgType.SIGNAL_ICE_ADMIN =>
      if s.pc = true ∧ p.hasCandidate = true then (s, [VEffect.addIce])
      else (s, [])
    | MsgType.STOP_STREAM =>
      ({ s with
          streamInfo := none
          status := VStatus.ended
          errorMsg := "The broadcast has ended." },
       (if s.pc then [VEffect.closePC] else []) ++
        [VEffect.clearHeartbeat, VEffect.clearStats])
    | _ => (s, [])

end StreamStudio

namespace DVR

/-- Mirrors `const DVR_BUFFER_SECONDS = 120` (src/unnamed/part_006). -/
def DVR_BUFFER_SECONDS : Nat := 120

/-- One recorded media chunk as stored in `dvrChunksRef`: its byte size and
its `Date.now()` arrival timestamp in milliseconds. -/
structure Chunk where
  size : Nat
  time : Nat
deriving DecidableEq

/-- What the `<video>` element is playing: nothing, the live `MediaStream`
(`srcObject`), or a materialized DVR blob URL (`src`). -/
inductive VideoSrc
  | empty
  | liveFeed (stream : Nat)
  | blobUrl (u : Nat)
deriving DecidableEq

/-- The DVR-capable viewer state (src/unnamed/part_006): the chunk buffer,
the recording flag (`mediaRecorderRef` active), the current object URL with
a fresh-URL counter, the live stream reference, the playback source, and
the live-edge flags. -/
structure DvrViewer where
  chunks : List Chunk
  recording : Bool
  objectUrl : Option Nat
  nextUrl : Nat
  liveStream : Option Nat
  videoSrc : VideoSrc
  isPlayingDvr : Bool
  isAtLiveEdge : Bool
deriving DecidableEq

/-- Embeds `recorder.ondataavailable`: when a non-empty chunk arrives, append it
with timestamp `now` and drop every chunk strictly older than
`now − DVR_BUFFER_SECONDS·1000`. Fires only while the recorder runs. -/
def onDataAvailable (now : Nat) (size : Nat) (s : DvrViewer) : DvrViewer :=
  if s.recording = true ∧ size > 0 then
    let trimmed := (s.chunks ++ [Chunk.mk size now]).filter
      (fun c => decide (c.time ≥ now - DVR_BUFFER_SECONDS * 1000))
    { s with chunks := trimmed }
  else s

/-- Embeds `buildDvrBlob`: it yields `null` when no chunk is buffered; otherwise revoke the
previous object URL and mint a fresh one over the concatenated chunks. -/
def buildDvrBlob (s : DvrViewer) : DvrViewer × Option Nat :=
  if s.chunks = [] then (s, none)
  else
    ({ s with
        objectUrl := some s.nextUrl
        nextUrl := s.nextUrl + 1 },
     some s.nextUrl)

/-- Embeds `seekToDvr(positionSeconds)`: mark DVR playback, leave the live edge,
and switch the video element to a freshly built blob URL; `positionSeconds`
only selects `video.currentTime` inside the blob. The chunk buffer and the
recorder are untouched. -/
def seekToDvr (positionSeconds : ℚ) (s : DvrViewer) : DvrViewer :=
  let s1 := { s with isPlayingDvr := true, isAtLiveEdge := false }
  match buildDvrBlob s1 with
  | (s2, none) => s2
  | (s2, some u) => { s2 with videoSrc := VideoSrc.blobUrl u }

/-- Embeds `goToLive`: when a live stream reference exists, revoke and drop the
temporary blob URL and point the video element back at the live feed. -/
def goToLive (s : DvrViewer) : DvrViewer :=
  match s.liveStream with
  | none => s
  | some st =>
    { s with
        isPlayingDvr := false
        isAtLiveEdge := true
        objectUrl := none
        videoSrc := VideoSrc.liveFeed st }

end DVR

namespace Reconnect

/-- Mirrors `const MAX_RECONNECT_ATTEMPTS = 8` (src/unnamed/part_010). -/
def MAX_RECONNECT_ATTEMPTS : Nat := 8

/-- Mirrors `const RECONNECT_BASE_DELAY = 1500` (ms). -/
def RECONNECT_BASE_DELAY : ℚ := 1500

/-- The backoff delay computed by `scheduleReconnect`:
`Math.min(RECONNECT_BASE_DELAY * Math.pow(1.5, attempt), 15000)`. -/
def reconnectDelay (attempt : Nat) : ℚ :=
  min (RECONNECT_BASE_DELAY * (3 / 2) ^ attempt) 15000

/-- Viewer connection status in part_010
(`connecting | live | ended | reconnecting`). -/
inductive ConnStatus
  | connecting
  | reconnecting
  | live
  | ended
deriving DecidableEq

/-- The reconnection-relevant state: `reconnectAttemptsRef` and the status. -/
structure ReconnState where
  attempts : Nat
  status : ConnStatus
deriving DecidableEq

/-- Entry of `connectToBroadcaster`: bump the attempt counter and show
`connecting`. -/
def connectAttempt (s : ReconnState) : ReconnState :=
  { s with attempts := s.attempts + 1, status := ConnStatus.connecting }

/-- Embeds `scheduleReconnect`: give up with `ended` once the attempt counter has
reached the bound, otherwise enter `reconnecting` and arm a timer for the
backoff delay of the current attempt. -/
def scheduleReconnect (s : ReconnState) : ReconnState × Option ℚ :=
  if s.attempts ≥ MAX_RECONNECT_ATTEMPTS then
    ({ s with status := ConnStatus.ended }, none)
  else ({ s with status := ConnStatus.reconnecting },
        some (reconnectDelay s.attempts))

/-- The `peer-unavailable` error branch: retry through `scheduleReconnect`
while the budget remains, otherwise end with the "not live" message. -/
def peerUnavailable (s : ReconnState) : ReconnState × Option ℚ :=
  if s.attempts < MAX_RECONNECT_ATTEMPTS then scheduleReconnect s
  else ({ s with status := ConnStatus.ended }, none)

/-- The `call.on('stream')` success path once `video.play()` resolves:
status `live` and the attempt counter reset to zero. -/
def streamLivePlayOk (s : ReconnState) : ReconnState :=
  { s with status := ConnStatus.live, attempts := 0 }

/-- A run against a broadcaster that never responds: each
`connectToBroadcaster` call ends in `peer-unavailable`, whose timer (when
armed) fires the next call. Returns the final state and the list of
inter-attempt delays. `fuel` bounds the number of events processed. -/
def runNeverResponding : Nat → ReconnState → ReconnState × List ℚ
  | 0, s => (s, [])
  | fuel + 1, s =>
    let s1 := connectAttempt s
    match peerUnavailable s1 with
    | (s2, none) => (s2, [])
    | (s2, some d) =>
      let r := runNeverResponding fuel s2
      (r.1, d :: r.2)

/-- The state on mount: zero attempts, `connecting`. -/
def initialReconnState : ReconnState :=
  { attempts := 0, status := ConnStatus.connecting }

end Reconnect

namespace StreamStudio

theorem mapGet_mapSet_self {A : Type} (m : List (String × A)) (k : String) (v : A) :
    mapGet (mapSet m k v) k = some v := by
  induction m with
  | nil => simp [mapSet, mapGet]
  | cons e t ih =>
    obtain ⟨a, b⟩ := e
    by_cases h : a = k
    · simp [mapSet, h, mapGet]
    · simp [mapSet, h, mapGet, ih]

theorem mapGet_mapSet_ne {A : Type} (m : List (String × A)) (k k' : String) (v : A)
    (h : k ≠ k') : mapGet (mapSet m k v) k' = mapGet m k' := by
  induction m with
  | nil => simp [mapSet, mapGet, h]
  | cons e t ih =>
    obtain ⟨a, b⟩ := e
    by_cases ha : a = k
    · subst ha
      simp [mapSet, mapGet, h, ih]
    · by_cases hb : a = k'
      · simp [mapSet, mapGet, ha, hb, Ne.symm h]
      · simp [mapSet, mapGet, ha, hb, ih]

theorem mem_of_mem_mapSet {A : Type} {m : List (String × A)} {k : String} {v : A}
    {e : String × A} (h : e ∈ mapSet m k v) : e ∈ m ∨ e = (k, v) := by
  induction m with
  | nil => simpa [mapSet] using h
  | cons hd t ih =>
    obtain ⟨a, b⟩ := hd
    by_cases ha : a = k
    · simp [mapSet, ha] at h
      rcases h with h | h
      · right; exact h
      · left; simp [h]
    · simp [mapSet, ha] at h
      rcases h with h | h
      · left; simp [h]
      · rcases ih h with h' | h'
        · left; simp [h']
        · right; exact h'

theorem mapGet_filter_none {A : Type} (m : List (String × A))
    (f : String × A → Bool) (k : String) (h : ∀ v, f (k, v) = false) :
    mapGet (m.filter f) k = none := by
  induction m with
  | nil => simp [mapGet]
  | cons e t ih =>
    obtain ⟨a, b⟩ := e
    by_cases ha : a = k
    · subst ha
      simp [List.filter, h b, ih]
    · by_cases hf : f (a, b) = true
      · simp [List.filter, hf, mapGet, ha, ih]
      · simp [List.filter, hf, ih]

theorem initiateWebRTC_preserves (id : String) (c : Option SessionId)
    (s : AdminState) :
    (initiateWebRTC id c s).1.viewerMap = s.viewerMap ∧
    (initiateWebRTC id c s).1.streamTitle = s.streamTitle ∧
    (initiateWebRTC id c s).1.mode = s.mode ∧
    (initiateWebRTC id c s).1.selectedResolution = s.selectedResolution ∧
    (initiateWebRTC id c s).1.stream = s.stream ∧
    (initiateWebRTC id c s).1.streamId = s.streamId := by
  cases c with
  | none => simp [initiateWebRTC]
  | some sid =>
    by_cases h : s.stream = false
    · simp [initiateWebRTC, h]
    · simp [initiateWebRTC, h]

theorem initiateWebRTC_offer_mem (id : String) (sid : SessionId)
    (s : AdminState) (hs : s.stream = true) :
    Effect.postSignalOffer id sid s.streamTitle s.mode s.selectedResolution ∈
      (initiateWebRTC id (some sid) s).2 := by
  simp only [initiateWebRTC, hs]
  cases h : mapGet s.peerConnections id <;> simp [h]

theorem initiateWebRTC_pc_set (id : String) (sid : SessionId) (s : AdminState)
    (hs : s.stream = true) :
    (initiateWebRTC id (some sid) s).1.peerConnections =
      mapSet s.peerConnections id ⟨SignalingState.haveLocalOffer⟩ := by
  simp [initiateWebRTC, hs]

theorem initiateWebRTC_no_streamUpdate (id : String) (c : Option SessionId)
    (s : AdminState) :
    ∀ e ∈ (initiateWebRTC id c s).2, Effect.isStreamUpdate e = false := by
  cases c with
  | none => simp [initiateWebRTC]
  | some sid =>
    by_cases h : s.stream = false
    · simp [initiateWebRTC, h]
    · cases hg : mapGet s.peerConnections id <;>
        simp [initiateWebRTC, h, hg, Effect.isStreamUpdate]

theorem renegotiateAll_preserves (nid : SessionId) (ids : List String)
    (s : AdminState) :
    (renegotiateAll nid ids s).1.viewerMap = s.viewerMap ∧
    (renegotiateAll nid ids s).1.streamTitle = s.streamTitle ∧
    (renegotiateAll nid ids s).1.mode = s.mode ∧
    (renegotiateAll nid ids s).1.selectedResolution = s.selectedResolution ∧
    (renegotiateAll nid ids s).1.stream = s.stream ∧
    (renegotiateAll nid ids s).1.streamId = s.streamId := by
  induction ids generalizing s with
  | nil => simp [renegotiateAll]
  | cons hd tl ih =>
    have h1 := initiateWebRTC_preserves hd (some nid) s
    have h2 := ih (initiateWebRTC hd (some nid) s).1
    simp only [renegotiateAll]
    obtain ⟨a1, a2, a3, a4, a5, a6⟩ := h1
    obtain ⟨b1, b2, b3, b4, b5, b6⟩ := h2
    exact ⟨b1.trans a1, b2.trans a2, b3.trans a3, b4.trans a4, b5.trans a5,
      b6.trans a6⟩

theorem renegotiateAll_pc_stable (nid : SessionId) (ids : List String)
    (s : AdminState) (id : String) (hs : s.stream = true)
    (h : mapGet s.peerConnections id = some ⟨SignalingState.haveLocalOffer⟩) :
    mapGet (renegotiateAll nid ids s).1.peerConnections id =
      some ⟨SignalingState.haveLocalOffer⟩ := by
  induction ids generalizing s with
  | nil => simpa [renegotiateAll] using h
  | cons hd tl ih =>
    simp only [renegotiateAll]
    have hstream : (initiateWebRTC hd (some nid) s).1.stream = true :=
      (initiateWebRTC_preserves hd (some nid) s).2.2.2.2.1.trans hs
    apply ih _ hstream
    rw [initiateWebRTC_pc_set hd nid s hs]
    by_cases hhd : hd = id
    · subst hhd
      exact mapGet_mapSet_self _ _ _
    · rw [mapGet_mapSet_ne _ _ _ _ hhd]
      exact h

theorem renegotiateAll_pc_get (nid : SessionId) (ids : List String)
    (s : AdminState) (id : String) (hs : s.stream = true) (hid : id ∈ ids) :
    mapGet (renegotiateAll nid ids s).1.peerConnections id =
      some ⟨SignalingState.haveLocalOffer⟩ := by
  induction ids generalizing s with
  | nil => cases hid
  | cons hd tl ih =>
    simp only [renegotiateAll]
    have hstream : (initiateWebRTC hd (some nid) s).1.stream = true :=
      (initiateWebRTC_preserves hd (some nid) s).2.2.2.2.1.trans hs
    rcases List.mem_cons.mp hid with h | h
    · subst h
      apply renegotiateAll_pc_stable _ _ _ _ hstream
      rw [initiateWebRTC_pc_set id nid s hs]
      exact mapGet_mapSet_self _ _ _
    · exact ih _ hstream h

theorem renegotiateAll_offer_mem (nid : SessionId) (ids : List String)
    (s : AdminState) (id : String) (hs : s.stream = true) (hid : id ∈ ids) :
    Effect.postSignalOffer id nid s.streamTitle s.mode s.selectedResolution ∈
      (renegotiateAll nid ids s).2 := by
  induction ids generalizing s with
  | nil => cases hid
  | cons hd tl ih =>
    simp only [renegotiateAll, List.mem_append]
    rcases List.mem_cons.mp hid with h | h
    · subst h
      left; right
      exact initiateWebRTC_offer_mem id nid s hs
    · right
      obtain ⟨a1, a2, a3, a4, a5, a6⟩ := initiateWebRTC_preserves hd (some nid) s
      have := ih (initiateWebRTC hd (some nid) s).1 (a5.trans hs) h
      rwa [a2, a3, a4] at this

theorem renegotiateAll_no_streamUpdate (nid : SessionId) (ids : List String)
    (s : AdminState) :
    ∀ e ∈ (renegotiateAll nid ids s).2, Effect.isStreamUpdate e = false := by
  induction ids generalizing s with
  | nil => simp [renegotiateAll]
  | cons hd tl ih =>
    intro e he
    simp only [renegotiateAll, List.mem_append] at he
    rcases he with (he | he) | he
    · rcases hg : mapGet s.peerConnections hd with _ | pc <;> rw [hg] at he <;>
        simp at he
      simp [he, Effect.isStreamUpdate]
    · exact initiateWebRTC_no_streamUpdate hd (some nid) s e he
    · exact ih _ e he

theorem renegotiateAll_filter_streamUpdate (nid : SessionId)
    (ids : List String) (s : AdminState) :
    (renegotiateAll nid ids s).2.filter Effect.isStreamUpdate = [] :=
  List.filter_eq_nil_iff.mpr (fun e he => by
    simp [renegotiateAll_no_streamUpdate nid ids s e he])

end StreamStudio

namespace StreamStudio

/-- C2: after a prune pass at time `now` with the 12000 ms timeout, no
viewer record older than the timeout remains; records inside the window
are kept verbatim (and nothing new appears); and every stale record is
removed together with its peer-connection entry, with a close emitted on
that very pass whenever a peer connection existed. -/
theorem c2_pruneStale_removes_exactly_stale (s : AdminState) (now : Nat) :
    (∀ e ∈ (pruneStaleViewers now s).1.viewerMap,
        ¬ now - e.2 > VIEWER_TIMEOUT) ∧
    (∀ e ∈ s.viewerMap, ¬ now - e.2 > VIEWER_TIMEOUT →
        e ∈ (pruneStaleViewers now s).1.viewerMap) ∧
    (∀ e ∈ (pruneStaleViewers now s).1.viewerMap, e ∈ s.viewerMap) ∧
    (∀ e ∈ s.viewerMap, now - e.2 > VIEWER_TIMEOUT →
        e ∉ (pruneStaleViewers now s).1.viewerMap ∧
        mapGet (pruneStaleViewers now s).1.peerConnections e.1 = none ∧
        (mapGet s.peerConnections e.1 ≠ none →
          Effect.closePC e.1 ∈ (pruneStaleViewers now s).2)) := by
  refine ⟨?_, ?_, ?_, ?_⟩
  · intro e he
    simp only [pruneStaleViewers, List.mem_filter] at he
    simpa using he.2
  · intro e he hin
    simp only [pruneStaleViewers, List.mem_filter]
    exact ⟨he, by simpa using hin⟩
  · intro e he
    simp only [pruneStaleViewers, List.mem_filter] at he
    exact he.1
  · intro e he hstale
    have hmem : e.1 ∈ (s.viewerMap.filter
        (fun e => decide (now - e.2 > VIEWER_TIMEOUT))).map (fun e => e.1) :=
      List.mem_map_of_mem _ (List.mem_filter.mpr ⟨he, by simpa using hstale⟩)
    refine ⟨?_, ?_, ?_⟩
    · intro hcontra
      simp only [pruneStaleViewers, List.mem_filter] at hcontra
      have := hcontra.2
      simp at this
      omega
    · simp only [pruneStaleViewers]
      exact mapGet_filter_none _ _ _ (fun v => by simpa using hmem)
    · intro hpc
      rcases Option.ne_none_iff_exists.mp hpc with ⟨pc, hpcEq⟩
      simp only [pruneStaleViewers]
      exact List.mem_filterMap.mpr ⟨e.1, hmem, by rw [← hpcEq]⟩

/-- C2 witness: a viewer last seen at time 1000 pruned at time 14000 (13 s
later, beyond the 12 s timeout) is removed and its peer connection is
closed on that pass, while a viewer last seen 5 s earlier survives. -/
theorem c2_pruneStale_witness :
    (("v1", 1000) ∈ (liveState [("v1", 1000), ("v2", 9000)]
        [("v1", ⟨SignalingState.stable⟩)]).viewerMap) ∧
    (14000 - 1000 > VIEWER_TIMEOUT) ∧
    (("v1", 1000) ∉ (pruneStaleViewers 14000 (liveState [("v1", 1000), ("v2", 9000)]
        [("v1", ⟨SignalingState.stable⟩)])).1.viewerMap ∧
      mapGet (pruneStaleViewers 14000 (liveState [("v1", 1000), ("v2", 9000)]
        [("v1", ⟨SignalingState.stable⟩)])).1.peerConnections "v1" = none ∧
      (mapGet (liveState [("v1", 1000), ("v2", 9000)]
          [("v1", ⟨SignalingState.stable⟩)]).peerConnections "v1" ≠ none →
        Effect.closePC "v1" ∈ (pruneStaleViewers 14000
          (liveState [("v1", 1000), ("v2", 9000)]
            [("v1", ⟨SignalingState.stable⟩)])).2)) ∧
    (("v2", 9000) ∈ (pruneStaleViewers 14000 (liveState [("v1", 1000), ("v2", 9000)]
        [("v1", ⟨SignalingState.stable⟩)])).1.viewerMap) := by
  refine ⟨by decide, by decide, ?_, ?_⟩
  · exact (c2_pruneStale_removes_exactly_stale
      (liveState [("v1", 1000), ("v2", 9000)] [("v1", ⟨SignalingState.stable⟩)])
      14000).2.2.2 ("v1", 1000) (by decide) (by decide)
  · exact (c2_pruneStale_removes_exactly_stale
      (liveState [("v1", 1000), ("v2", 9000)] [("v1", ⟨SignalingState.stable⟩)])
      14000).2.1 ("v2", 9000) (by decide) (by decide)

/-- C4 counterexample: calling `stopStream` in the idle state (mode `IDLE`,
no stream, empty registry) is not free of observable effects — it still
posts a `STOP_STREAM` broadcast on the signaling channel. -/
theorem c4_cex_stop_idle_emits_stop_broadcast :
    (stopStream (idleState "Title" ⟨1280, 720, "720p (HD)"⟩)).2 =
      [Effect.postStopStream] ∧
    (stopStream (idleState "Title" ⟨1280, 720, "720p (HD)"⟩)).2 ≠ [] := by
  exact ⟨rfl, by decide⟩

/-- C4 (amended): `stopStream` called with no active session leaves the
whole broadcaster state unchanged, but still emits exactly one
`STOP_STREAM` broadcast (and nothing else) on the signaling channel. -/
theorem c4_stopStream_idle_noop_on_state (title : String) (res : Resolution) :
    stopStream (idleState title res) =
      (idleState title res, [Effect.postStopStream]) := by
  rfl

/-- C10: a `VIEWER_JOIN`, `VIEWER_HEARTBEAT` or `VIEWER_LEAVE` whose payload
has a missing/empty `viewerId` is ignored: the state (registry and
peer-connection map included) is unchanged and no effect is produced;
consequently the handler preserves the invariant that the registry never
holds an entry keyed by the empty viewer id. -/
theorem c10_empty_viewerId_ignored (s : AdminState) (p : Payload) (now : Nat)
    (t : MsgType) (hp : p.viewerId = "")
    (ht : t = MsgType.VIEWER_JOIN ∨ t = MsgType.VIEWER_HEARTBEAT ∨
      t = MsgType.VIEWER_LEAVE)
    (hinv : ∀ e ∈ s.viewerMap, e.1 ≠ "") :
    onAdminMessage t p now s = (s, []) ∧
    (∀ t2 p2 now2, ∀ e ∈ (onAdminMessage t2 p2 now2 s).1.viewerMap,
      e.1 ≠ "") := by
  constructor
  · rcases ht with h | h | h <;> subst h <;> simp [onAdminMessage, hp]
  · intro t2 p2 now2 e he
    cases t2 <;> simp only [onAdminMessage] at he
    case VIEWER_JOIN =>
      by_cases hv : p2.viewerId = ""
      · simp [hv] at he
        exact hinv e he
      · simp [hv] at he
        rcases mem_of_mem_mapSet he with h | h
        · exact hinv e h
        · rw [h]
          exact hv
    case VIEWER_HEARTBEAT =>
      by_cases hv : p2.viewerId = ""
      · simp [hv] at he
        exact hinv e he
      · simp [hv] at he
        rcases mem_of_mem_mapSet he with h | h
        · exact hinv e h
        · rw [h]
          exact hv
    case VIEWER_LEAVE =>
      by_cases hv : p2.viewerId = ""
      · simp [hv] at he
        exact hinv e he
      · simp [hv, mapDelete, List.mem_filter] at he
        exact hinv e he.1
    case SIGNAL_ANSWER =>
      rcases hg : mapGet s.peerConnections p2.viewerId with _ | pc <;>
        rw [hg] at he
      · exact hinv e he
      · by_cases hc : pc.signalingState ≠ SignalingState.stable ∧
          p2.hasAnswer = true
        · simp [hc] at he
          exact hinv e he
        · simp [hc] at he
          exact hinv e he
    case SIGNAL_ICE =>
      rcases hg : mapGet s.peerConnections p2.viewerId with _ | pc <;>
        rw [hg] at he
      · exact hinv e he
      · by_cases hc : p2.hasCandidate = true
        · simp [hc] at he
          exact hinv e he
        · simp [hc] at he
          exact hinv e he
    all_goals exact hinv e he

/-- C10 witness: a `VIEWER_JOIN` with an empty `viewerId`, arriving at a
state whose registry holds only `"v1"`, changes nothing and produces no
effect, and the registry afterwards still holds no empty key. -/
theorem c10_empty_viewerId_witness :
    onAdminMessage MsgType.VIEWER_JOIN ⟨"", false, false⟩ 7
        (liveState [("v1", 3)] []) =
      (liveState [("v1", 3)] [], []) ∧
    (∀ e ∈ (onAdminMessage MsgType.VIEWER_HEARTBEAT ⟨"w2", false, false⟩ 9
        (liveState [("v1", 3)] [])).1.viewerMap, e.1 ≠ "") := by
  have h := c10_empty_viewerId_ignored (liveState [("v1", 3)] [])
    ⟨"", false, false⟩ 7 MsgType.VIEWER_JOIN (by decide) (Or.inl rfl)
    (by decide)
  exact ⟨h.1, h.2 MsgType.VIEWER_HEARTBEAT ⟨"w2", false, false⟩ 9⟩

end StreamStudio

namespace StreamStudio

/-- C1 counterexample: with viewer `"v1"` in the Viewer Registry but no
peer connection for it, a source switch (`setupStream`) posts no
`SIGNAL_OFFER` for `"v1"` and creates no transport session for it — the
renegotiation loop covers only the peer-connection map, not the registry. -/
theorem c1_cex_switch_skips_registered_viewer :
    ("v1", 5) ∈ (liveState [("v1", 5)] []).viewerMap ∧
    (setupStream 6 "zz" "tip" StreamMode.SCREEN (liveState [("v1", 5)] [])).2 =
      [Effect.stopTracks,
       Effect.postStreamUpdate "Title" StreamMode.SCREEN ⟨6, "zz"⟩
         ⟨1280, 720, "720p (HD)"⟩] ∧
    ((setupStream 6 "zz" "tip" StreamMode.SCREEN
        (liveState [("v1", 5)] [])).2.filter (Effect.isOfferFor "v1")) = [] ∧
    mapGet (setupStream 6 "zz" "tip" StreamMode.SCREEN
        (liveState [("v1", 5)] [])).1.peerConnections "v1" = none := by
  refine ⟨by decide, rfl, rfl, rfl⟩

/-- C1 (amended): a source switch renegotiates with every viewer that has
an entry in the peer-connection map — each such viewer receives a
`SIGNAL_OFFER` carrying the new session id and ends with a fresh
negotiating connection — and the Viewer Registry is preserved verbatim
across the switch. -/
theorem c1_switch_renegotiates_every_connected_viewer (s : AdminState)
    (now : Nat) (rand tip : String) (m : StreamMode) (id : String)
    (hid : id ∈ s.peerConnections.map Prod.fst) :
    (setupStream now rand tip m s).1.viewerMap = s.viewerMap ∧
    Effect.postSignalOffer id (genId now rand) s.streamTitle m
        s.selectedResolution ∈ (setupStream now rand tip m s).2 ∧
    mapGet (setupStream now rand tip m s).1.peerConnections id =
      some ⟨SignalingState.haveLocalOffer⟩ := by
  simp only [setupStream]
  refine ⟨?_, ?_, ?_⟩
  · exact (renegotiateAll_preserves _ _ _).1
  · simp only [List.mem_append]
    right
    exact renegotiateAll_offer_mem _ _ _ _ rfl (by simpa using hid)
  · exact renegotiateAll_pc_get _ _ _ _ rfl (by simpa using hid)

/-- C1 witness: switching the source with viewers `"v1"`, `"v2"` both
connected sends `"v2"` a fresh offer for the new session id, rebuilds its
connection, and leaves the registry untouched. -/
theorem c1_switch_witness :
    ("v2" ∈ (liveState [("v1", 5), ("v2", 6)]
      [("v1", ⟨SignalingState.stable⟩),
       ("v2", ⟨SignalingState.stable⟩)]).peerConnections.map Prod.fst) ∧
    ((setupStream 9 "qq" "tip" StreamMode.SCREEN
        (liveState [("v1", 5), ("v2", 6)]
          [("v1", ⟨SignalingState.stable⟩),
           ("v2", ⟨SignalingState.stable⟩)])).1.viewerMap =
      (liveState [("v1", 5), ("v2", 6)]
        [("v1", ⟨SignalingState.stable⟩),
         ("v2", ⟨SignalingState.stable⟩)]).viewerMap ∧
     Effect.postSignalOffer "v2" (genId 9 "qq")
        (liveState [("v1", 5), ("v2", 6)]
          [("v1", ⟨SignalingState.stable⟩),
           ("v2", ⟨SignalingState.stable⟩)]).streamTitle StreamMode.SCREEN
        (liveState [("v1", 5), ("v2", 6)]
          [("v1", ⟨SignalingState.stable⟩),
           ("v2", ⟨SignalingState.stable⟩)]).selectedResolution ∈
        (setupStream 9 "qq" "tip" StreamMode.SCREEN
          (liveState [("v1", 5), ("v2", 6)]
            [("v1", ⟨SignalingState.stable⟩),
             ("v2", ⟨SignalingState.stable⟩)])).2 ∧
     mapGet (setupStream 9 "qq" "tip" StreamMode.SCREEN
        (liveState [("v1", 5), ("v2", 6)]
          [("v1", ⟨SignalingState.stable⟩),
           ("v2", ⟨SignalingState.stable⟩)])).1.peerConnections "v2" =
      some ⟨SignalingState.haveLocalOffer⟩) :=
  ⟨by decide,
   c1_switch_renegotiates_every_connected_viewer
     (liveState [("v1", 5), ("v2", 6)]
       [("v1", ⟨SignalingState.stable⟩), ("v2", ⟨SignalingState.stable⟩)])
     9 "qq" "tip" StreamMode.SCREEN "v2" (by decide)⟩

/-- C5: every successful source start allocates a fresh session id — the
pair built from `Date.now()` and the random suffix, hence distinct from
the previous id whenever those generation inputs are fresh — and emits
exactly one `STREAM_UPDATE` broadcast carrying the new id, title, mode and
resolution. -/
theorem c5_setup_fresh_id_single_update (s : AdminState) (now : Nat)
    (rand tip : String) (m : StreamMode)
    (hfresh : s.streamId ≠ some (genId now rand)) :
    (setupStream now rand tip m s).1.streamId = some (genId now rand) ∧
    (setupStream now rand tip m s).1.streamId ≠ s.streamId ∧
    ((setupStream now rand tip m s).2.filter Effect.isStreamUpdate) =
      [Effect.postStreamUpdate s.streamTitle m (genId now rand)
        s.selectedResolution] := by
  have hid : (setupStream now rand tip m s).1.streamId =
      some (genId now rand) := by
    simp only [setupStream]
    exact (renegotiateAll_preserves _ _ _).2.2.2.2.2
  refine ⟨hid, ?_, ?_⟩
  · rw [hid]
    intro h
    exact hfresh h.symm
  · simp only [setupStream, List.filter_append,
      renegotiateAll_filter_streamUpdate]
    by_cases h : s.stream <;> simp [h, Effect.isStreamUpdate]

/-- C5 witness: starting a screen source at time 9 with suffix `"qq"` on a
state whose previous session id is `⟨5, "abc"⟩` yields the distinct new id
`⟨9, "qq"⟩` and a single `STREAM_UPDATE` carrying it. -/
theorem c5_setup_witness :
    ((liveState [] []).streamId ≠ some (genId 9 "qq")) ∧
    ((setupStream 9 "qq" "tip" StreamMode.SCREEN (liveState [] [])).1.streamId =
        some (genId 9 "qq") ∧
      (setupStream 9 "qq" "tip" StreamMode.SCREEN (liveState [] [])).1.streamId ≠
        (liveState [] []).streamId ∧
      ((setupStream 9 "qq" "tip" StreamMode.SCREEN
          (liveState [] [])).2.filter Effect.isStreamUpdate) =
        [Effect.postStreamUpdate (liveState [] []).streamTitle StreamMode.SCREEN
          (genId 9 "qq") (liveState [] []).selectedResolution]) :=
  ⟨by decide,
   c5_setup_fresh_id_single_update (liveState [] []) 9 "qq" "tip"
     StreamMode.SCREEN (by decide)⟩

/-- C6: the viewer discards every message addressed to a different viewer
id (unless it is the `STOP_STREAM` broadcast) without touching its state;
the broadcaster discards `SIGNAL_ANSWER` and `SIGNAL_ICE` messages whose
`viewerId` has no known peer connection. -/
theorem c6_dispatch_discards_misaddressed (myId : String) (sid : SessionId)
    (t : MsgType) (p : VPayload) (vs : ViewerState) (s : AdminState)
    (q : Payload) (now : Nat)
    (h1 : p.viewerId ≠ "") (h2 : p.viewerId ≠ myId)
    (h3 : t ≠ MsgType.STOP_STREAM)
    (hb : mapGet s.peerConnections q.viewerId = none) :
    handleViewerMessage myId sid t p vs = (vs, []) ∧
    onAdminMessage MsgType.SIGNAL_ANSWER q now s = (s, []) ∧
    onAdminMessage MsgType.SIGNAL_ICE q now s = (s, []) := by
  refine ⟨?_, ?_, ?_⟩
  · simp [handleViewerMessage, h1, h2, h3]
  · simp [onAdminMessage, hb]
  · simp [onAdminMessage, hb]

/-- C6 witness: viewer `"me"` drops a `SIGNAL_OFFER` addressed to `"other"`
without any state change, and a broadcaster with no connection for `"ghost"`
drops that viewer's `SIGNAL_ANSWER` and `SIGNAL_ICE`. -/
theorem c6_dispatch_witness :
    handleViewerMessage "me" ⟨5, "abc"⟩ MsgType.SIGNAL_OFFER
        ⟨"other", some ⟨5, "abc"⟩, "Title", StreamMode.LIVE, none, true, false⟩
        ⟨none, VStatus.connecting, "", false, []⟩ =
      (⟨none, VStatus.connecting, "", false, []⟩, []) ∧
    onAdminMessage MsgType.SIGNAL_ANSWER ⟨"ghost", true, false⟩ 7
        (liveState [] [("v1", ⟨SignalingState.haveLocalOffer⟩)]) =
      (liveState [] [("v1", ⟨SignalingState.haveLocalOffer⟩)], []) ∧
    onAdminMessage MsgType.SIGNAL_ICE ⟨"ghost", true, false⟩ 7
        (liveState [] [("v1", ⟨SignalingState.haveLocalOffer⟩)]) =
      (liveState [] [("v1", ⟨SignalingState.haveLocalOffer⟩)], []) :=
  c6_dispatch_discards_misaddressed "me" ⟨5, "abc"⟩ MsgType.SIGNAL_OFFER
    ⟨"other", some ⟨5, "abc"⟩, "Title", StreamMode.LIVE, none, true, false⟩
    ⟨none, VStatus.connecting, "", false, []⟩
    (liveState [] [("v1", ⟨SignalingState.haveLocalOffer⟩)])
    ⟨"ghost", true, false⟩ 7 (by decide) (by decide) (by decide) (by decide)

/-- C7 counterexample: a `VIEWER_JOIN` arriving while no media source is
attached updates `lastSeenAt` but schedules no negotiation at all — and
when a source is attached, the scheduling delay is the constant 400 ms
(the same at unrelated inputs), not a randomized one. -/
theorem c7_cex_join_schedule_not_as_claimed :
    (onAdminMessage MsgType.VIEWER_JOIN ⟨"v1", false, false⟩ 1000
        (idleState "Title" ⟨1280, 720, "720p (HD)"⟩)).1.viewerMap =
      [("v1", 1000)] ∧
    (onAdminMessage MsgType.VIEWER_JOIN ⟨"v1", false, false⟩ 1000
        (idleState "Title" ⟨1280, 720, "720p (HD)"⟩)).2 = [] ∧
    (onAdminMessage MsgType.VIEWER_JOIN ⟨"v1", false, false⟩ 1000
        (liveState [] [])).2 =
      [Effect.scheduleWebRTC "v1" (some ⟨5, "abc"⟩) 400] ∧
    (onAdminMessage MsgType.VIEWER_JOIN ⟨"v2", false, false⟩ 99999
        (liveState [("v1", 1)] [])).2 =
      [Effect.scheduleWebRTC "v2" (some ⟨5, "abc"⟩) 400] := by
  refine ⟨rfl, rfl, rfl, rfl⟩

/-- C7 (amended): `VIEWER_JOIN` and `VIEWER_HEARTBEAT` with a non-empty
`viewerId` stamp that viewer's `lastSeenAt` with the current time; a join
additionally schedules `initiateWebRTC` for that viewer after a fixed
400 ms delay, but only when a media source is currently attached — with no
source, nothing is scheduled, and a heartbeat never schedules anything. -/
theorem c7_join_heartbeat_update_and_fixed_delay (s : AdminState) (now : Nat)
    (p : Payload) (h : p.viewerId ≠ "") :
    mapGet (onAdminMessage MsgType.VIEWER_JOIN p now s).1.viewerMap
        p.viewerId = some now ∧
    mapGet (onAdminMessage MsgType.VIEWER_HEARTBEAT p now s).1.viewerMap
        p.viewerId = some now ∧
    (s.stream = true →
      (onAdminMessage MsgType.VIEWER_JOIN p now s).2 =
        [Effect.scheduleWebRTC p.viewerId s.streamId 400]) ∧
    (s.stream = false →
      (onAdminMessage MsgType.VIEWER_JOIN p now s).2 = []) ∧
    (onAdminMessage MsgType.VIEWER_HEARTBEAT p now s).2 = [] := by
  refine ⟨?_, ?_, ?_, ?_, ?_⟩
  · simp [onAdminMessage, h, mapGet_mapSet_self]
  · simp [onAdminMessage, h, mapGet_mapSet_self]
  · intro hs
    simp [onAdminMessage, h, hs]
  · intro hs
    simp [onAdminMessage, h, hs]
  · simp [onAdminMessage, h]

/-- C7 witness: viewer `"v1"` joining at time 7 with a source attached is
stamped `lastSeenAt = 7` and negotiation is scheduled with the fixed
400 ms delay; its heartbeat stamps the time and schedules nothing. -/
theorem c7_join_witness :
    (("v1" : String) ≠ "") ∧
    (mapGet (onAdminMessage MsgType.VIEWER_JOIN ⟨"v1", false, false⟩ 7
        (liveState [] [])).1.viewerMap "v1" = some 7 ∧
     mapGet (onAdminMessage MsgType.VIEWER_HEARTBEAT ⟨"v1", false, false⟩ 7
        (liveState [] [])).1.viewerMap "v1" = some 7 ∧
     ((liveState [] []).stream = true →
       (onAdminMessage MsgType.VIEWER_JOIN ⟨"v1", false, false⟩ 7
          (liveState [] [])).2 =
        [Effect.scheduleWebRTC "v1" (liveState [] []).streamId 400]) ∧
     ((liveState [] []).stream = false →
       (onAdminMessage MsgType.VIEWER_JOIN ⟨"v1", false, false⟩ 7
          (liveState [] [])).2 = []) ∧
     (onAdminMessage MsgType.VIEWER_HEARTBEAT ⟨"v1", false, false⟩ 7
        (liveState [] [])).2 = []) :=
  ⟨by decide,
   c7_join_heartbeat_update_and_fixed_delay (liveState [] []) 7
     ⟨"v1", false, false⟩ (by decide)⟩

end StreamStudio

namespace Reconnect

theorem runNR_general (r : Nat) : ∀ (a fuel : Nat) (st : ConnStatus),
    a + r = 8 → 1 ≤ r → r ≤ fuel →
    runNeverResponding fuel ⟨a, st⟩ =
      ({ attempts := 8, status := ConnStatus.ended },
       (List.range' (a + 1) (r - 1)).map reconnectDelay) := by
  induction r with
  | zero =>
    intro a fuel st h1 h2 h3
    exact absurd h2 (by omega)
  | succ r ih =>
    intro a fuel st h1 h2 h3
    obtain ⟨f, rfl⟩ : ∃ f, fuel = f + 1 := ⟨fuel - 1, by omega⟩
    rcases Nat.eq_zero_or_pos r with hr | hr
    · subst hr
      have ha : a = 7 := by omega
      subst ha
      simp [runNeverResponding, connectAttempt, peerUnavailable,
        scheduleReconnect, MAX_RECONNECT_ATTEMPTS]
    · have ha1 : a + 1 < 8 := by omega
      have hnot : ¬ 8 ≤ a + 1 := by omega
      have step :
          runNeverResponding (f + 1) ⟨a, st⟩ =
            ((runNeverResponding f ⟨a + 1, ConnStatus.reconnecting⟩).1,
             reconnectDelay (a + 1) ::
               (runNeverResponding f ⟨a + 1, ConnStatus.reconnecting⟩).2) := by
        simp [runNeverResponding, connectAttempt, peerUnavailable,
          scheduleReconnect, MAX_RECONNECT_ATTEMPTS, ha1, hnot]
      rw [step, ih (a + 1) f ConnStatus.reconnecting (by omega) (by omega)
        (by omega)]
      have hsplit : List.range' (a + 1) (r + 1 - 1) =
          (a + 1) :: List.range' (a + 1 + 1) (r - 1) := by
        have h4 : r + 1 - 1 = (r - 1) + 1 := by omega
        rw [h4, List.range'_succ]
      rw [hsplit]
      simp

/-- C3: with a broadcaster that never responds, the viewer connection loop
makes exactly `MAX_RECONNECT_ATTEMPTS = 8` connection attempts and then
reaches the terminal `ended` status, with the seven inter-attempt delays
equal to `min(1500 · 1.5^attempt, 15000)` for the running attempt count —
a monotonically non-decreasing sequence capped at 15 s — while a
successful arrival at `live` resets the attempt counter to zero. -/
theorem c3_reconnect_exhausts_after_eight (fuel : Nat) (hf : 8 ≤ fuel)
    (a b : Nat) (hab : a ≤ b) (s : ReconnState) :
    runNeverResponding fuel initialReconnState =
      ({ attempts := 8, status := ConnStatus.ended },
       [reconnectDelay 1, reconnectDelay 2, reconnectDelay 3, reconnectDelay 4,
        reconnectDelay 5, reconnectDelay 6, reconnectDelay 7]) ∧
    reconnectDelay a ≤ reconnectDelay b ∧
    reconnectDelay b ≤ 15000 ∧
    streamLivePlayOk s = { attempts := 0, status := ConnStatus.live } := by
  refine ⟨?_, ?_, ?_, rfl⟩
  · have h := runNR_general 8 0 fuel ConnStatus.connecting (by omega)
      (by omega) hf
    simpa [initialReconnState, List.range'] using h
  · simp only [reconnectDelay]
    have hbase : (0 : ℚ) ≤ RECONNECT_BASE_DELAY := by
      norm_num [RECONNECT_BASE_DELAY]
    have hone : (1 : ℚ) ≤ 3 / 2 := by norm_num
    exact min_le_min
      (mul_le_mul_of_nonneg_left (pow_le_pow_right₀ hone hab) hbase) le_rfl
  · exact min_le_right _ _

/-- C3 witness: a concrete never-responding run with fuel 20 ends at 8 used
attempts with the seven capped, non-decreasing backoff delays, and a state
with 3 pending attempts is reset to zero on reaching `live`. -/
theorem c3_reconnect_witness :
    (8 ≤ 20 ∧ 1 ≤ 2) ∧
    (runNeverResponding 20 initialReconnState =
      ({ attempts := 8, status := ConnStatus.ended },
       [reconnectDelay 1, reconnectDelay 2, reconnectDelay 3, reconnectDelay 4,
        reconnectDelay 5, reconnectDelay 6, reconnectDelay 7]) ∧
     reconnectDelay 1 ≤ reconnectDelay 2 ∧
     reconnectDelay 2 ≤ 15000 ∧
     streamLivePlayOk ⟨3, ConnStatus.reconnecting⟩ =
       { attempts := 0, status := ConnStatus.live }) :=
  ⟨⟨by decide, by decide⟩,
   c3_reconnect_exhausts_after_eight 20 (by decide) 1 2 (by decide)
     ⟨3, ConnStatus.reconnecting⟩⟩

end Reconnect

namespace DVR

/-- C8: immediately after each chunk insert (`ondataavailable` with a
non-empty chunk while recording), no retained chunk is older than
`now − 120 s`, and — provided chunk timestamps never exceed the arrival
time `now` — the total buffered span never exceeds the 120 s window. -/
theorem c8_dvr_window_invariant (s : DvrViewer) (now size : Nat)
    (hrec : s.recording = true) (hsize : 0 < size)
    (hmono : ∀ c ∈ s.chunks, c.time ≤ now) :
    (∀ c ∈ (onDataAvailable now size s).chunks,
        ¬ now - c.time > DVR_BUFFER_SECONDS * 1000) ∧
    (∀ c ∈ (onDataAvailable now size s).chunks,
      ∀ c' ∈ (onDataAvailable now size s).chunks,
        c.time - c'.time ≤ DVR_BUFFER_SECONDS * 1000) := by
  have hdef : (onDataAvailable now size s).chunks =
      (s.chunks ++ [Chunk.mk size now]).filter
        (fun c => decide (c.time ≥ now - DVR_BUFFER_SECONDS * 1000)) := by
    simp [onDataAvailable, hrec, hsize]
  constructor
  · intro c hc
    rw [hdef] at hc
    have h := (List.mem_filter.mp hc).2
    simp at h
    omega
  · intro c hc c' hc'
    rw [hdef] at hc hc'
    have h1 := (List.mem_filter.mp hc').2
    simp at h1
    have h2 := (List.mem_filter.mp hc).1
    have h3 : c.time ≤ now := by
      rcases List.mem_append.mp h2 with h | h
      · exact hmono c h
      · simp at h
        simp [h]
    omega

/-- C8 witness: appending a chunk at time 130000 to a buffer holding one
chunk from time 0 (outside the window) evicts the old chunk and leaves a
buffer whose every chunk is within the trailing window and whose span is
within 120 s. -/
theorem c8_dvr_window_witness :
    (⟨[⟨1, 0⟩], true, none, 0, some 0, VideoSrc.liveFeed 0, false, true⟩ :
        DvrViewer).recording = true ∧ 0 < 1 ∧
    (∀ c ∈ (onDataAvailable 130000 1
        (⟨[⟨1, 0⟩], true, none, 0, some 0, VideoSrc.liveFeed 0, false, true⟩ :
          DvrViewer)).chunks,
        ¬ 130000 - c.time > DVR_BUFFER_SECONDS * 1000) ∧
    (onDataAvailable 130000 1
        (⟨[⟨1, 0⟩], true, none, 0, some 0, VideoSrc.liveFeed 0, false, true⟩ :
          DvrViewer)).chunks = [⟨1, 130000⟩] :=
  ⟨rfl, by decide,
   (c8_dvr_window_invariant
     (⟨[⟨1, 0⟩], true, none, 0, some 0, VideoSrc.liveFeed 0, false, true⟩ :
       DvrViewer) 130000 1 rfl (by decide) (by decide)).1,
   by decide⟩

theorem seekToDvr_preserves (p : ℚ) (s : DvrViewer) :
    (seekToDvr p s).recording = s.recording ∧
    (seekToDvr p s).chunks = s.chunks ∧
    (seekToDvr p s).liveStream = s.liveStream := by
  by_cases h : s.chunks = [] <;> simp [seekToDvr, buildDvrBlob, h]

theorem seekFold_preserves (poss : List ℚ) (s : DvrViewer) :
    (poss.foldl (fun acc p => seekToDvr p acc) s).recording = s.recording ∧
    (poss.foldl (fun acc p => seekToDvr p acc) s).chunks = s.chunks ∧
    (poss.foldl (fun acc p => seekToDvr p acc) s).liveStream = s.liveStream := by
  induction poss generalizing s with
  | nil => exact ⟨rfl, rfl, rfl⟩
  | cons hd tl ih =>
    simp only [List.foldl_cons]
    obtain ⟨a1, a2, a3⟩ := seekToDvr_preserves hd s
    obtain ⟨b1, b2, b3⟩ := ih (seekToDvr hd s)
    exact ⟨b1.trans a1, b2.trans a2, b3.trans a3⟩

/-- C9: after any number of DVR seeks, `goToLive` points playback back at
the live media feed, discards the temporary blob URL, and marks the live
edge; the seeks themselves never touch the recorder or the chunk buffer,
so a chunk arriving during rewound playback is still appended and kept. -/
theorem c9_return_to_live (s : DvrViewer) (st : Nat) (poss : List ℚ)
    (hlive : s.liveStream = some st) :
    (goToLive (poss.foldl (fun acc p => seekToDvr p acc) s)).videoSrc =
      VideoSrc.liveFeed st ∧
    (goToLive (poss.foldl (fun acc p => seekToDvr p acc) s)).objectUrl =
      none ∧
    (goToLive (poss.foldl (fun acc p => seekToDvr p acc) s)).isAtLiveEdge =
      true ∧
    (poss.foldl (fun acc p => seekToDvr p acc) s).recording = s.recording ∧
    (poss.foldl (fun acc p => seekToDvr p acc) s).chunks = s.chunks ∧
    (∀ now size, s.recording = true → 0 < size →
      Chunk.mk size now ∈ (onDataAvailable now size
        (poss.foldl (fun acc p => seekToDvr p acc) s)).chunks) := by
  obtain ⟨hrec, hchunks, hstream⟩ := seekFold_preserves poss s
  rw [hlive] at hstream
  refine ⟨?_, ?_, ?_, hrec, hchunks, ?_⟩
  · simp [goToLive, hstream]
  · simp [goToLive, hstream]
  · simp [goToLive, hstream]
  · intro now size hr hsz
    have hrec2 : (poss.foldl (fun acc p => seekToDvr p acc) s).recording =
        true := hrec.trans hr
    simp only [onDataAvailable, hrec2, hsz, and_self, true_and, if_pos,
      and_true]
    simp [List.mem_filter, Nat.sub_le]

/-- C9 witness: two rewinds followed by `goToLive` on a live buffer resume
the live feed with the blob URL revoked, and a chunk arriving mid-rewind
is still buffered. -/
theorem c9_return_to_live_witness :
    ((⟨[⟨1, 500⟩], true, none, 3, some 42, VideoSrc.liveFeed 42, false, true⟩ :
        DvrViewer).liveStream = some 42) ∧
    ((goToLive ([(10 : ℚ), 20].foldl (fun acc p => seekToDvr p acc)
        (⟨[⟨1, 500⟩], true, none, 3, some 42, VideoSrc.liveFeed 42, false,
          true⟩ : DvrViewer))).videoSrc = VideoSrc.liveFeed 42 ∧
     (goToLive ([(10 : ℚ), 20].foldl (fun acc p => seekToDvr p acc)
        (⟨[⟨1, 500⟩], true, none, 3, some 42, VideoSrc.liveFeed 42, false,
          true⟩ : DvrViewer))).objectUrl = none ∧
     Chunk.mk 9 1000 ∈ (onDataAvailable 1000 9
        ([(10 : ℚ), 20].foldl (fun acc p => seekToDvr p acc)
          (⟨[⟨1, 500⟩], true, none, 3, some 42, VideoSrc.liveFeed 42, false,
            true⟩ : DvrViewer))).chunks) := by
  have h := c9_return_to_live
    (⟨[⟨1, 500⟩], true, none, 3, some 42, VideoSrc.liveFeed 42, false, true⟩ :
      DvrViewer) 42 [(10 : ℚ), 20] rfl
  exact ⟨rfl, h.1, h.2.1, h.2.2.2.2.2 1000 9 rfl (by decide)⟩

end DVR
